import Mathlib

/-!
Verification of the email_agent workflow core against its specification.

The Python sources are shallowly embedded as Lean definitions:

* `src/src/templates/engine.py`       → `EmailAgent.buildPlan` and helpers
* `src/src/workflow/workflow.py`      → `EmailAgent.stepG` (graph routing),
                                        `EmailAgent.applyRevisionHints`
* `src/src/agents/review_validator_agent.py` → `EmailAgent.reviewExecute`
* `src/src/agents/intent_detection_agent.py` → `EmailAgent.intentExecute`
* `src/src/agents/memory_agent.py`    → `EmailAgent.memoryExecute`
* `src/src/utils/recipient.py`        → `EmailAgent.normalizeRecipient`,
                                        `EmailAgent.computeRecipientKey`
* the input parser agent module  → `EmailAgent.inputParserExecute`
* `src/src/agents/tone_stylist_agent.py` → `EmailAgent.toneStylistExecute`

LLM calls are opaque in the source; here each generator response is a
parameter: either an already-parsed structured value, or a parse failure
(`Except.error` carrying the error text), mirroring the `json.loads`
try/except blocks in the agents.  Python dict fields that may be absent or
`None` are `Option` fields; Python's falsy-`or` idiom on strings/options is
embedded explicitly (`pyOr`, `pyOrS`).
-/

namespace EmailAgent

/-! ## Python string primitives

Python `str.upper()` / `str.lower()` restricted to ASCII (every string the
agents compare case-insensitively — statuses, severities, sentinels, length
hints — is ASCII in the source). -/

/-- ASCII uppercase of one character, as in Python `str.upper()`. -/
def upChar (c : Char) : Char :=
  if 97 ≤ c.toNat ∧ c.toNat ≤ 122 then Char.ofNat (c.toNat - 32) else c

/-- ASCII lowercase of one character, as in Python `str.lower()`. -/
def lowChar (c : Char) : Char :=
  if 65 ≤ c.toNat ∧ c.toNat ≤ 90 then Char.ofNat (c.toNat + 32) else c

/-- Embedding of Python `s.upper()`. -/
def pyUpper (s : String) : String := ⟨s.data.map upChar⟩

/-- Embedding of Python `s.lower()`. -/
def pyLower (s : String) : String := ⟨s.data.map lowChar⟩

/-- Whitespace for `str.strip()` (the strings stripped here use ASCII
whitespace only). -/
def isPySpace (c : Char) : Bool := c.isWhitespace

/-- Embedding of Python `s.strip()`: drop whitespace from both ends. -/
def pyStrip (s : String) : String :=
  ⟨((s.data.dropWhile isPySpace).reverse.dropWhile isPySpace).reverse⟩

/-- Python `opt or default` on an optional string: `None` and `""` are falsy. -/
def pyOr (v : Option String) (dflt : String) : String :=
  match v with
  | none => dflt
  | some s => if s = "" then dflt else s

/-- Python `s or default` on a string: `""` is falsy. -/
def pyOrS (s dflt : String) : String := if s = "" then dflt else s

/-- Python `opt or None` on an optional string: collapses `""` to `None`. -/
def pyOrNone (v : Option String) : Option String :=
  match v with
  | none => none
  | some s => if s = "" then none else some s

/-! ## Data model: constraints, tone, parsed input

`constraints` is a Python dict; the fields the core reads are given
explicitly, everything else (UI/metadata passthrough entries) is kept in
`extra` so that "all other entries unchanged" is statable.  The
`recipient_*` entries are the metadata overlay consumed by
`normalize_recipient` (in `MemoryAgent` the metadata dict IS the
constraints dict). -/

structure Constraints where
  length : Option String := none
  use_bullets : Bool := false
  must_include : List String := []
  must_avoid : List String := []
  recipient_email : Option String := none
  recipient_name : Option String := none
  recipient_org : Option String := none
  recipient_role : Option String := none
  recipient_relationship : Option String := none
  extra : List (String × String) := []
deriving Repr, DecidableEq

structure ToneParams where
  tone_label : Option String := none
  formality : Option Int := none
  warmth : Option Int := none
  directness : Option Int := none
  confidence : Option ℚ := none
deriving Repr, DecidableEq

structure Recipient where
  name : Option String := none
  role : Option String := none
  relationship : Option String := none
  org : Option String := none
  email : Option String := none
deriving Repr, DecidableEq

structure ParsedInput where
  primary_request : Option String := none
  recipient : Option Recipient := none
  context : Option String := none
  ask : Option String := none
deriving Repr, DecidableEq

/-! ## Template Plan Engine (`src/src/templates/engine.py`) -/

structure LengthBudget where
  target_words : Nat
  max_words : Nat
  max_paragraphs : Nat
  max_bullets : Nat
deriving Repr, DecidableEq

/-- `EmailTemplateEngine._length_budget`. -/
def lengthBudget (length_hint : String) : LengthBudget :=
  if length_hint ∈ (["very_short", "tiny"] : List String) then
    ⟨70, 100, 3, 3⟩
  else if length_hint ∈ (["short", "concise"] : List String) then
    ⟨110, 160, 4, 4⟩
  else if length_hint ∈ (["long", "detailed"] : List String) then
    ⟨220, 320, 6, 6⟩
  else
    ⟨160, 240, 5, 5⟩

structure FormatBlock where
  use_subject : Bool
  use_bullets : Bool
  max_bullets : Nat
  section_order : List String
deriving Repr, DecidableEq

/-- A stored template record (`get_best_template` result); `template_id`
is optional since the plan reads it with `.get`. -/
structure Template where
  template_id : Option String := none
  body : String := ""
deriving Repr, DecidableEq

structure Placeholders where
  subject : String
  greeting : String
  context : String
  ask : String
  closing : String
  signature : String
deriving Repr, DecidableEq

/-- `EmailTemplateEngine._default_body`. -/
def defaultBody : String :=
  "Subject: \x7b\x7bsubject\x7d\x7d\n\n\x7b\x7bgreeting\x7d\x7d\n\n\x7b\x7bcontext\x7d\x7d\n\n\x7b\x7bask\x7d\x7d\n\n\x7b\x7bclosing\x7d\x7d\n\x7b\x7bsignature\x7d\x7d\n"

/-- `EmailTemplateEngine._render`: literal substitution, dict insertion
order, missing values render as empty string. -/
def renderTemplate (template : String) (p : Placeholders) : String :=
  (((((template.replace "\x7b\x7bsubject\x7d\x7d" p.subject).replace
      "\x7b\x7bgreeting\x7d\x7d" p.greeting).replace
      "\x7b\x7bcontext\x7d\x7d" p.context).replace
      "\x7b\x7bask\x7d\x7d" p.ask).replace
      "\x7b\x7bclosing\x7d\x7d" p.closing).replace
      "\x7b\x7bsignature\x7d\x7d" p.signature

/-- `EmailTemplateEngine._suggest_subject`. -/
def suggestSubject (intent : String) (pi : ParsedInput) : String :=
  let primary := pyStrip (pyOr pi.primary_request "")
  if primary ≠ "" then primary.take 70
  else if intent = "follow_up" then "Following up"
  else if intent = "request" then "Request"
  else if intent = "apology" then "Apology"
  else if intent = "outreach" then "Introduction"
  else if intent = "info" then "Update"
  else "Message"

/-- `EmailTemplateEngine._suggest_greeting`. -/
def suggestGreeting (tone_label : String) (pi : ParsedInput) : String :=
  let rec_ := pi.recipient.getD {}
  let name := pyStrip (pyOr rec_.name "")
  if name ≠ "" then "Hi " ++ name ++ ","
  else if tone_label = "formal" then "Hello," else "Hi,"

/-- `EmailTemplateEngine._suggest_context`. -/
def suggestContext (pi : ParsedInput) : String :=
  pyStrip (pyOr pi.context "I’m reaching out regarding the following.")

/-- `EmailTemplateEngine._suggest_ask`. -/
def suggestAsk (intent : String) (pi : ParsedInput) : String :=
  let ask := pyStrip (pyOr pi.ask "")
  if ask ≠ "" then ask
  else if intent = "follow_up" then "Could you share an update when you have a moment?"
  else if intent = "request" then "Could you please help with this?"
  else if intent = "apology" then "I’ll make sure this is resolved promptly."
  else if intent = "outreach" then "Would you be open to a brief chat?"
  else "Please let me know your thoughts."

/-- `EmailTemplateEngine._suggest_closing`. -/
def suggestClosing (tone_label : String) : String :=
  if tone_label = "formal" then "Thank you for your time."
  else if tone_label = "friendly" then "Thanks so much!"
  else if tone_label = "apologetic" then "Thank you for your understanding."
  else if tone_label = "assertive" then "Thanks in advance for your help."
  else "Thanks,"

/-- `EmailTemplateEngine._suggest_signature`. -/
def suggestSignature : String := "[Your Name]"

structure Plan where
  template_id : Option String
  tone_label : String
  length_hint : String
  length_budget : LengthBudget
  format : FormatBlock
  placeholders : Placeholders
  template_body : String
  rendered_skeleton : String
deriving Repr, DecidableEq

/-- The template store's `get_best_template`, abstracted as a function
(the engine guards on `self.store is not None`, hence the `Option`). -/
def TemplateStoreFn : Type := String → String → Constraints → Option Template

/-- `EmailTemplateEngine.build_plan`. -/
def buildPlan (store : Option TemplateStoreFn) (intent : String)
    (tone_params : ToneParams) (constraints : Constraints)
    (parsed_input : ParsedInput) : Plan :=
  let tone_label := pyOrS (pyStrip (pyOr tone_params.tone_label "neutral")) "neutral"
  let lh0 := pyLower (pyStrip (pyOr constraints.length ""))
  let length_hint := if lh0 = "" then (if tone_label = "concise" then "short" else "medium") else lh0
  let budget := lengthBudget length_hint
  let fmt : FormatBlock :=
    { use_subject := true
      use_bullets := constraints.use_bullets
      max_bullets := budget.max_bullets
      section_order := ["subject", "greeting", "context", "ask", "closing", "signature"] }
  let tpl : Option Template :=
    match store with
    | none => none
    | some f => f intent tone_label constraints
  let body := pyOrS ((tpl.getD {}).body) defaultBody
  let placeholders : Placeholders :=
    { subject := suggestSubject intent parsed_input
      greeting := suggestGreeting tone_label parsed_input
      context := suggestContext parsed_input
      ask := suggestAsk intent parsed_input
      closing := suggestClosing tone_label
      signature := suggestSignature }
  { template_id := (tpl.getD {}).template_id
    tone_label := tone_label
    length_hint := length_hint
    length_budget := budget
    format := fmt
    placeholders := placeholders
    template_body := body
    rendered_skeleton := renderTemplate body placeholders }

/-! ## Review/Validator agent (`src/src/agents/review_validator_agent.py`)

The generator's reply is modelled post-`json.loads`: `Except.error e` is a
parse failure (the caught exception text), `Except.ok d` the decoded dict.
An entry of the `issues` array that is not a JSON object is `IssueEntry.nonDict`
(the source filters those out with `isinstance(i, dict)`); an `issues`
value that is absent, `null` or not a list collapses to `none` (the source
maps all of these to `[]`). -/

structure Issue where
  category : Option String := none
  severity : Option String := none
  detail : Option String := none
  suggested_fix : Option String := none
deriving Repr, DecidableEq

inductive IssueEntry where
  | obj (i : Issue)
  | nonDict
deriving Repr, DecidableEq

structure SuggestedEdits where
  apply_minor_fixes : Bool := false
  recommended_tone : Option String := none
deriving Repr, DecidableEq

/-- The validator generator's decoded JSON output. -/
structure ValidatorOutput where
  status : Option String := none
  summary : Option String := none
  issues : Option (List IssueEntry) := none
  suggested_edits : Option SuggestedEdits := none
  revision_instructions : Option String := none
deriving Repr, DecidableEq

/-- The normalized `validation_report` dict the validator stores. -/
structure Report where
  status : String
  summary : String := ""
  issues : List IssueEntry := []
  suggested_edits : Option SuggestedEdits := none
  revision_instructions : String := ""
deriving Repr, DecidableEq

/-- `str(i.get("severity") or "").lower() == "high"` over one issues entry. -/
def isHighSeverity (e : IssueEntry) : Bool :=
  match e with
  | .nonDict => false
  | .obj i => pyLower (pyOr i.severity "") = "high"

/-- The default actionable instruction synthesized on a non-PASS report. -/
def defaultRevisionInstructions : String :=
  "Revise the email to address the issues (clarity, tone alignment, and professionalism). Apply only necessary edits; keep structure intact."

/-- The fixed report built in the `json.loads` `except` branch. -/
def parseFailureReport (e : String) : Report :=
  { status := "FAIL"
    summary := "Validator returned non-JSON output."
    issues := [.obj { category := some "other", severity := some "high",
                      detail := some ("Json Parse Error: " ++ e),
                      suggested_fix := some "Adjust validator prompt to return strict JSON." }]
    suggested_edits := some { apply_minor_fixes := false, recommended_tone := none }
    revision_instructions := "" }

/-- `status = (data.get("status") or "FAIL").upper()`. -/
def rawStatusUpper (data : ValidatorOutput) : String :=
  pyUpper (pyOr data.status "FAIL")

/-- `issues = data.get("issues") or []`, with the non-list guard. -/
def parsedIssues (data : ValidatorOutput) : List IssueEntry :=
  data.issues.getD []

/-- The status after the high-severity downgrade rule
(`if status != "BLOCKED" and high_severity: status = "FAIL"`). -/
def normStatus (data : ValidatorOutput) : String :=
  if rawStatusUpper data ≠ "BLOCKED" ∧ (parsedIssues data).filter isHighSeverity ≠ [] then
    "FAIL"
  else rawStatusUpper data

/-- `revision_instructions` after the non-PASS default synthesis. -/
def normRevisionInstructions (data : ValidatorOutput) : String :=
  let ri0 := pyStrip (pyOr data.revision_instructions "")
  if normStatus data ≠ "PASS" ∧ ri0 = "" then defaultRevisionInstructions else ri0

/-- `ReviewValidatorAgent._execute` from the generator reply onward:
returns the `validation_report` update and `is_valid`. -/
def reviewExecute (gen : Except String ValidatorOutput) : Report × Bool :=
  match gen with
  | .error e => (parseFailureReport e, false)
  | .ok data =>
    let report : Report :=
      { status := normStatus data
        summary := pyOr data.summary ""
        issues := parsedIssues data
        suggested_edits := some (data.suggested_edits.getD {})
        revision_instructions := normRevisionInstructions data }
    (report, report.status = "PASS")

/-! ## Workflow graph and retry loop (`src/src/workflow/workflow.py`)

The LangGraph wiring is embedded as a step function over the node names.
Each step performs one node body plus its outgoing (conditional) edge.
The LLM-dependent outcomes are an oracle: `requiresClar` is the input
parser's clarification verdict, `verdict k` the status string of the
`k`-th `validation_report` produced by the review validator.  The
counters `draftEntries`/`reentries` instrument how often the draft writer
node is entered (at all / via the `apply_revision_hints → draft_writer`
repair edge); they do not influence routing. -/

inductive GNode where
  | inputParserNode
  | intent_detection
  | tone_stylist
  | draft_writer
  | personalization
  | review_validator
  | memory
  | bump_retry
  | apply_revision_hints
  | finished
deriving Repr, DecidableEq

structure GOracle where
  requiresClar : Bool
  verdict : Nat → String

structure GState where
  node : GNode
  retry_count : Nat
  validations : Nat
  draftEntries : Nat
  reentries : Nat
deriving Repr, DecidableEq

/-- One graph step: the node body (`bump_retry_node` increments
`retry_count`) followed by its router (the input parser router,
`validation_router`, `retry_router`, or the unconditional edge). -/
def stepG (o : GOracle) (s : GState) : GState :=
  match s.node with
  | .inputParserNode =>
      if o.requiresClar then { s with node := .finished }
      else { s with node := .intent_detection }
  | .intent_detection => { s with node := .tone_stylist }
  | .tone_stylist =>
      { s with node := .draft_writer, draftEntries := s.draftEntries + 1 }
  | .draft_writer => { s with node := .personalization }
  | .personalization => { s with node := .review_validator }
  | .review_validator =>
      let status := pyUpper (pyOrS (o.verdict s.validations) "")
      { s with validations := s.validations + 1,
               node := if status = "FAIL" then .bump_retry else .memory }
  | .bump_retry =>
      let rc := s.retry_count + 1
      { s with retry_count := rc,
               node := if rc < 2 then .apply_revision_hints else .memory }
  | .apply_revision_hints =>
      { s with node := .draft_writer,
               draftEntries := s.draftEntries + 1,
               reentries := s.reentries + 1 }
  | .memory => { s with node := .finished }
  | .finished => s

/-- The initial graph state of `run_query` (entry point is the input
parser node,
`retry_count = 0`). -/
def initG : GState :=
  { node := .inputParserNode, retry_count := 0, validations := 0,
    draftEntries := 0, reentries := 0 }

/-- The graph state after `n` steps of a run. -/
def traceG (o : GOracle) (n : Nat) : GState := (stepG o)^[n] initG

/-! ## `apply_revision_hints_node` (`src/src/workflow/workflow.py`) -/

/-- The `constraint_resolution` dict of a validation report.  `none`
stands for an absent/empty/non-dict value (the node returns no update in
that case). -/
structure ConstraintResolution where
  drop_must_include : Option (List String) := none
  add_must_avoid : Option (List String) := none
  override_tone_label : Option String := none
deriving Repr, DecidableEq

/-- `dict.fromkeys(l)` key order: first occurrence kept, later duplicates
dropped. -/
def dedupFirstAux (seen : List String) : List String → List String
  | [] => []
  | x :: xs =>
      if x ∈ seen then dedupFirstAux seen xs
      else x :: dedupFirstAux (x :: seen) xs

def dedupFirst (l : List String) : List String := dedupFirstAux [] l

/-- `apply_revision_hints_node`: applies the resolution deltas to the
state's constraints and tone params.  (The node returns `{}` when the
resolution is absent/empty, which merges to the identity on the state.) -/
def applyRevisionHints (constraints : Constraints) (tone_params : ToneParams)
    (res : Option ConstraintResolution) : Constraints × ToneParams :=
  match res with
  | none => (constraints, tone_params)
  | some r =>
    let drop := r.drop_must_include.getD []
    let c1 :=
      if drop ≠ [] then
        { constraints with must_include := constraints.must_include.filter (fun x => x ∉ drop) }
      else constraints
    let add_avoid := r.add_must_avoid.getD []
    let c2 :=
      if add_avoid ≠ [] then
        { c1 with must_avoid := dedupFirst (c1.must_avoid ++ add_avoid) }
      else c1
    let t1 :=
      match r.override_tone_label with
      | some s => if pyStrip s ≠ "" then { tone_params with tone_label := some (pyStrip s) } else tone_params
      | none => tone_params
    (c2, t1)

/-! ## Intent Detection agent (`src/src/agents/intent_detection_agent.py`) -/

def INTENT_ALIASES : List (String × String) :=
  [("follow up", "follow_up"), ("follow-up", "follow_up"), ("followup", "follow_up"),
   ("requesting", "request"), ("asking", "request")]

/-- `INTENT_ALIASES.get(s, s)`. -/
def aliasGet (s : String) : String :=
  match INTENT_ALIASES.find? (fun p => p.1 = s) with
  | some p => p.2
  | none => s

def VALID_INTENTS : List String :=
  ["outreach", "follow_up", "apology", "info", "request", "thank_you", "scheduling", "other"]

/-- The intent generator's decoded JSON (`confidence` is `none` when the
value is absent or not convertible by `float(...)`). -/
structure IntentGenOutput where
  intent : Option String := none
  confidence : Option ℚ := none
  reason : Option String := none
deriving Repr, DecidableEq

structure IntentResult where
  intent : String
  intent_confidence : ℚ
  intent_source : String
  calledGenerator : Bool
deriving Repr, DecidableEq

/-- `IntentDetectionAgent._execute`: override path, soft-failure path and
model path.  `gen` is consulted only on the non-override paths, which is
recorded in `calledGenerator`. -/
def intentExecute (user_intent_override : String)
    (gen : Except String IntentGenOutput) : IntentResult :=
  let override := pyStrip user_intent_override
  if override ≠ "" ∧ pyLower override ∉ (["auto", "(auto)", "none"] : List String) then
    let chosen := pyStrip override
    { intent := chosen, intent_confidence := 1, intent_source := "ui", calledGenerator := false }
  else
    match gen with
    | .error _ =>
      { intent := "other", intent_confidence := 0, intent_source := "default",
        calledGenerator := true }
    | .ok data =>
      let raw_intent := pyLower (pyStrip (pyOr data.intent "other"))
      let intent0 := aliasGet raw_intent
      let conf0 := data.confidence.getD 0
      let conf1 := max 0 (min 1 conf0)
      let (intent, conf) :=
        if intent0 ∉ VALID_INTENTS then ("other", min conf1 (2/5 : ℚ))
        else (intent0, conf1)
      { intent := intent, intent_confidence := conf, intent_source := "model",
        calledGenerator := true }

/-! ## Recipient identity (`src/src/utils/recipient.py`) -/

/-- `_meta_get`: read a metadata entry, trim it, treat blank as absent. -/
def metaGet (v : Option String) : Option String :=
  match v with
  | none => none
  | some s => if pyStrip s = "" then none else some (pyStrip s)

/-- `_clean` in `normalize_recipient`. -/
def cleanField (v : Option String) : Option String :=
  match v with
  | none => none
  | some s => if pyStrip s = "" then none else some (pyStrip s)

/-- `normalize_recipient(parsed_recipient, metadata)`: the metadata overlay
is authoritative; note `email` and `org` are taken from metadata only. -/
def normalizeRecipient (parsed_recipient : Option Recipient) (metadata : Constraints) :
    Recipient :=
  let pr := parsed_recipient.getD {}
  let email := metaGet metadata.recipient_email
  let name := (metaGet metadata.recipient_name).orElse (fun _ => pyOrNone pr.name)
  let org := metaGet metadata.recipient_org
  let role := (metaGet metadata.recipient_role).orElse (fun _ => pyOrNone pr.role)
  let relationship := (metaGet metadata.recipient_relationship).orElse (fun _ => pyOrNone pr.relationship)
  { email := cleanField email
    name := cleanField name
    org := cleanField org
    role := cleanField role
    relationship := cleanField relationship }

/-- `compute_recipient_key`; the SHA-256 digest is abstracted as a
function parameter (the claims depend on which branch is taken, not on
the digest's bits). -/
def computeRecipientKey (digest : String → String) (recipient : Recipient) :
    Option String :=
  let email := pyLower (pyStrip (pyOr recipient.email ""))
  if email ≠ "" then some ("email:" ++ email)
  else
    let name := pyLower (pyStrip (pyOr recipient.name ""))
    let org := pyLower (pyStrip (pyOr recipient.org ""))
    let role := pyLower (pyStrip (pyOr recipient.role ""))
    if (name ≠ "" ∧ org ≠ "") ∨ (name ≠ "" ∧ role ≠ "") then
      let base := String.intercalate "|" [name, org, role]
      some ("hash:" ++ digest base)
    else none

/-! ## Memory Summarizer agent (`src/src/agents/memory_agent.py`) -/

structure Summary where
  relationship : Option String := none
  history : List String := []
  last_intent : Option String := none
  last_tone : Option String := none
deriving Repr, DecidableEq

/-- The part of the workflow state `MemoryAgent._execute` reads.
`validation_report_status` is `report.get("status")`; `user_id = ""`
models a missing/falsy user id; `recipient = none` models an absent or
empty `parsed_input.recipient` dict (falsy in `if recipient:`). -/
structure MemoryInput where
  validation_report_status : Option String := none
  user_id : String := ""
  recipient : Option Recipient := none
  constraints : Constraints := {}
deriving DecidableEq

/-- An `upsert_summary(user_id, recipient_key, summary)` call. -/
structure UpsertCall where
  user_id : String
  recipient_key : Option String
  summary : Summary
deriving Repr, DecidableEq

/-- The recipient key the agent derives: stays `None` when the parsed
recipient dict is falsy, otherwise `compute_recipient_key` of the
normalized recipient (which may itself be `None`). -/
def recipientKeyOf (digest : String → String) (st : MemoryInput) : Option String :=
  match st.recipient with
  | none => none
  | some r => computeRecipientKey digest (normalizeRecipient (some r) st.constraints)

/-- `MemoryAgent._execute`: returns the store write performed, if any.
`mergeResult` is the merge generator's reply after `json.loads` plus the
`summary`-is-a-dict check: `none` covers both failure modes (the agent
skips the write on either). -/
def memoryExecute (digest : String → String) (st : MemoryInput)
    (mergeResult : Option Summary) : Option UpsertCall :=
  if pyUpper (pyOr st.validation_report_status "") ≠ "PASS" then none
  else if st.user_id = "" then none
  else
    match mergeResult with
    | none => none
    | some summary =>
        some { user_id := st.user_id, recipient_key := recipientKeyOf digest st,
               summary := summary }

/-! ## Input Parser agent (the input parser module under src/src/agents)

Only the update map is modelled.  The `validation_report` this agent
writes has its own shape (`status`, optional `reason`, `questions`); an
empty dict (never produced on the paths below) is not needed. -/

structure ParserReport where
  status : String
  reason : Option String := none
  questions : List String := []
deriving Repr, DecidableEq

structure ParserGenOutput where
  requires_clarification : Bool := false
  clarification_questions : Option (List String) := none
  parsed_input : Option ParsedInput := none
  constraints : Option Constraints := none
deriving Repr, DecidableEq

structure ParserUpdates where
  requires_clarification : Bool
  parsed_input : ParsedInput
  constraints : Constraints
  validation_report : ParserReport
deriving Repr, DecidableEq

def parseFailureQuestions : List String :=
  ["Who is the recipient (name and/or role), and what is your relationship to them?",
   "What is the main goal of the email (request, update, follow-up, apology, etc.)?",
   "Any constraints (length, tone, deadline, bullet points, etc.)?"]

def defaultClarificationQuestions : List String :=
  ["Who is the recipient (name and/or role), and what is your relationship to them?",
   "What is the main goal of the email?"]

/-- `InputParsingAgent._execute` from the generator reply onward. -/
def inputParserExecute (gen : Except String ParserGenOutput) : ParserUpdates :=
  match gen with
  | .error _ =>
    { requires_clarification := true
      parsed_input := {}
      constraints := {}
      validation_report :=
        { status := "NEEDS_CLARIFICATION"
          reason := some "Input parser could not produce structured parse output."
          questions := parseFailureQuestions } }
  | .ok data =>
    let requires := data.requires_clarification
    let questions0 := data.clarification_questions.getD []
    let parsed_input := data.parsed_input.getD {}
    let constraints := data.constraints.getD {}
    if requires then
      let questions := if questions0 = [] then defaultClarificationQuestions else questions0
      { requires_clarification := true
        parsed_input := parsed_input
        constraints := constraints
        validation_report :=
          { status := "NEEDS_CLARIFICATION", questions := questions.take 4 } }
    else
      { requires_clarification := false
        parsed_input := parsed_input
        constraints := constraints
        validation_report := { status := "OK" } }

/-- The input parser router of the graph: clarification ends the run. -/
def inputParserRouter (requires_clarification : Bool) : GNode :=
  if requires_clarification then .finished else .intent_detection

/-! ## Tone Stylist agent (`src/src/agents/tone_stylist_agent.py`)

Only what claim C10 needs: the UI-override guard and the parse-failure
fallback (the model-inference normalization path is not at issue). -/

structure ToneGenOutput where
  tone_params : Option ToneParams := none
  reason : Option String := none
deriving Repr, DecidableEq

structure ToneUpdates where
  tone_params : ToneParams
  tone_source : String
  validation_report : Option ParserReport := none
deriving Repr, DecidableEq

/-- The hard-coded default neutral tone of the soft-failure branches. -/
def defaultTone : ToneParams :=
  { tone_label := some "neutral", formality := some 70, warmth := some 45,
    directness := some 65, confidence := some (3/10 : ℚ) }

/-- `ToneStylistAgent._execute` restricted to the override guard and the
`json.loads` failure branch; the successful model path is abstracted as
`modelPath` (its normalization is not under scrutiny here). -/
def toneStylistExecute (state_tone_params : ToneParams)
    (gen : Except String ToneGenOutput)
    (modelPath : ToneGenOutput → ToneUpdates) : ToneUpdates :=
  let ui_label := pyStrip (pyOr state_tone_params.tone_label "")
  if ui_label ≠ "" then
    { tone_params := state_tone_params, tone_source := "ui", validation_report := none }
  else
    match gen with
    | .error _ =>
      { tone_params := defaultTone
        tone_source := "default"
        validation_report := some
          { status := "WARN"
            reason := some "ToneStylist returned non-JSON output; applied default tone." } }
    | .ok data => modelPath data

/-! ## Helper lemmas -/

theorem toNat_ofNat_valid (n : Nat) (h : n < 55296) : (Char.ofNat n).toNat = n := by
  have hv : n.isValidChar := Or.inl h
  simp [Char.ofNat, hv, Char.ofNatAux, Char.toNat, UInt32.toNat, UInt32.ofNat']

theorem upChar_idem (c : Char) : upChar (upChar c) = upChar c := by
  unfold upChar
  by_cases h : 97 ≤ c.toNat ∧ c.toNat ≤ 122
  · have h2 : (Char.ofNat (c.toNat - 32)).toNat = c.toNat - 32 :=
      toNat_ofNat_valid _ (by omega)
    simp only [if_pos h, h2]
    rw [if_neg (by omega)]
  · simp [h]

theorem pyUpper_idem (s : String) : pyUpper (pyUpper s) = pyUpper s := by
  simp only [pyUpper, List.map_map]
  congr 1
  exact List.map_congr_left (fun c _ => upChar_idem c)

theorem pyUpper_ne_empty (s : String) (h : s ≠ "") : pyUpper s ≠ "" := by
  intro hc
  apply h
  have : (pyUpper s).data = [] := congrArg String.data hc
  simp only [pyUpper, List.map_eq_nil_iff] at this
  cases s
  simp_all [String.ext_iff]

theorem pyOr_ne_empty (v : Option String) (dflt : String) (h : dflt ≠ "") :
    pyOr v dflt ≠ "" := by
  cases v with
  | none => simpa [pyOr] using h
  | some s =>
    by_cases hs : s = "" <;> simp [pyOr, hs, h]

theorem dropWhile_idem (p : Char → Bool) (l : List Char) :
    (l.dropWhile p).dropWhile p = l.dropWhile p := by
  induction l with
  | nil => rfl
  | cons a as ih =>
    by_cases h : p a
    · simp [List.dropWhile_cons, h, ih]
    · simp [List.dropWhile_cons, h]

theorem dropWhile_head_not (p : Char → Bool) (l : List Char)
    (h : l.dropWhile p = l) : ∀ a as, l = a :: as → p a = false := by
  intro a as hl
  subst hl
  by_contra hp
  have hpa : p a = true := by
    cases hq : p a
    · exact absurd hq hp
    · rfl
  rw [List.dropWhile_cons, if_pos hpa] at h
  have := congrArg List.length h
  have hle := (List.dropWhile_suffix (l := as) p).sublist.length_le
  simp at this
  omega

theorem pyStrip_idem (s : String) : pyStrip (pyStrip s) = pyStrip s := by
  unfold pyStrip
  congr 1
  set p := isPySpace with hp
  set l1 := s.data.dropWhile p with hl1
  have h1 : l1.dropWhile p = l1 := by rw [hl1]; exact dropWhile_idem p s.data
  set l2 := (l1.reverse.dropWhile p).reverse with hl2
  have hpre : l2 <+: l1 := by
    rw [hl2]
    rw [← List.reverse_reverse l1]
    exact List.reverse_prefix.mpr (by simpa using List.dropWhile_suffix (l := l1.reverse) p)
  have h2 : l2.dropWhile p = l2 := by
    cases hc : l2 with
    | nil => simp
    | cons a as =>
      obtain ⟨t, ht⟩ := hpre
      rw [hc] at ht
      have hpa : p a = false := dropWhile_head_not p l1 h1 a (as ++ t) (by rw [← ht]; simp)
      rw [List.dropWhile_cons, if_neg (by simp [hpa])]
  rw [h2, hl2, List.reverse_reverse, dropWhile_idem]

theorem mem_dedupFirstAux (seen l : List String) (x : String) :
    x ∈ dedupFirstAux seen l ↔ x ∈ l ∧ x ∉ seen := by
  induction l generalizing seen with
  | nil => simp [dedupFirstAux]
  | cons a as ih =>
    rw [dedupFirstAux]
    by_cases h : a ∈ seen
    · rw [if_pos h, ih]
      constructor
      · rintro ⟨hx, hs⟩
        exact ⟨List.mem_cons_of_mem _ hx, hs⟩
      · rintro ⟨hx, hs⟩
        rcases List.mem_cons.mp hx with rfl | hx
        · exact absurd h hs
        · exact ⟨hx, hs⟩
    · rw [if_neg h]
      constructor
      · intro hx
        rcases List.mem_cons.mp hx with rfl | hx
        · exact ⟨List.mem_cons_self _ _, h⟩
        · obtain ⟨hl, hs⟩ := (ih _).mp hx
          exact ⟨List.mem_cons_of_mem _ hl,
                 fun hc => hs (List.mem_cons_of_mem _ hc)⟩
      · rintro ⟨hx, hs⟩
        rcases List.mem_cons.mp hx with rfl | hx
        · exact List.mem_cons_self _ _
        · by_cases hxa : x = a
          · subst hxa
            exact List.mem_cons_self _ _
          · exact List.mem_cons_of_mem _
              ((ih _).mpr ⟨hx, fun hc => (List.mem_cons.mp hc).elim hxa hs⟩)

theorem dedupFirstAux_nodup (seen l : List String) : (dedupFirstAux seen l).Nodup := by
  induction l generalizing seen with
  | nil => simp [dedupFirstAux]
  | cons a as ih =>
    by_cases h : a ∈ seen
    · rw [dedupFirstAux, if_pos h]
      exact ih seen
    · rw [dedupFirstAux, if_neg h]
      refine List.Nodup.cons ?_ (ih (a :: seen))
      intro hc
      exact ((mem_dedupFirstAux _ _ _).mp hc).2 (List.mem_cons_self a seen)

theorem dedupFirstAux_sublist (seen l : List String) :
    List.Sublist (dedupFirstAux seen l) l := by
  induction l generalizing seen with
  | nil => simp [dedupFirstAux]
  | cons a as ih =>
    by_cases h : a ∈ seen
    · rw [dedupFirstAux, if_pos h]
      exact (ih seen).cons a
    · rw [dedupFirstAux, if_neg h]
      exact (ih (a :: seen)).cons₂ a

theorem mem_dedupFirst (l : List String) (x : String) : x ∈ dedupFirst l ↔ x ∈ l := by
  rw [dedupFirst, mem_dedupFirstAux]
  simp

theorem dedupFirst_nodup (l : List String) : (dedupFirst l).Nodup :=
  dedupFirstAux_nodup [] l

theorem dedupFirst_sublist (l : List String) : List.Sublist (dedupFirst l) l :=
  dedupFirstAux_sublist [] l

theorem reviewStatus_upper (gen : Except String ValidatorOutput) :
    pyUpper (reviewExecute gen).1.status = (reviewExecute gen).1.status := by
  cases gen with
  | error e =>
    show pyUpper "FAIL" = "FAIL"
    decide
  | ok data =>
    show pyUpper (normStatus data) = normStatus data
    unfold normStatus
    by_cases hc : rawStatusUpper data ≠ "BLOCKED" ∧
        (parsedIssues data).filter isHighSeverity ≠ []
    · simp only [if_pos hc]
      decide
    · simp only [if_neg hc]
      exact pyUpper_idem _

theorem reviewStatus_ne_empty (gen : Except String ValidatorOutput) :
    (reviewExecute gen).1.status ≠ "" := by
  cases gen with
  | error e =>
    show ("FAIL" : String) ≠ ""
    decide
  | ok data =>
    show normStatus data ≠ ""
    unfold normStatus
    by_cases hc : rawStatusUpper data ≠ "BLOCKED" ∧
        (parsedIssues data).filter isHighSeverity ≠ []
    · simp only [if_pos hc]
      decide
    · simp only [if_neg hc]
      exact pyUpper_ne_empty _ (pyOr_ne_empty _ _ (by decide))

/-- The reachable-state invariant of the workflow graph: which
(`retry_count`, `draftEntries`, `reentries`) combinations each node can be
visited with. -/
def InvG (s : GState) : Prop :=
  (s.retry_count ≤ 2 ∧ s.draftEntries ≤ 2 ∧ s.reentries ≤ 1)
  ∧ ((s.node = .inputParserNode ∨ s.node = .intent_detection ∨ s.node = .tone_stylist) →
       s.retry_count = 0 ∧ s.draftEntries = 0 ∧ s.reentries = 0)
  ∧ ((s.node = .draft_writer ∨ s.node = .personalization ∨
      s.node = .review_validator ∨ s.node = .bump_retry) →
       (s.retry_count = 0 ∧ s.draftEntries = 1 ∧ s.reentries = 0)
       ∨ (s.retry_count = 1 ∧ s.draftEntries = 2 ∧ s.reentries = 1))
  ∧ (s.node = .apply_revision_hints →
       s.retry_count = 1 ∧ s.draftEntries = 1 ∧ s.reentries = 0)

theorem invG_init : InvG initG := by
  simp [InvG, initG]

theorem invG_step (o : GOracle) (s : GState) (h : InvG s) : InvG (stepG o s) := by
  obtain ⟨hbound, hpre, hmain, happly⟩ := h
  cases hn : s.node with
  | inputParserNode =>
    have h0 := hpre (by simp [hn])
    by_cases hcl : o.requiresClar <;>
      simp [InvG, stepG, hn, hcl, h0.1, h0.2.1, h0.2.2]
  | intent_detection =>
    have h0 := hpre (by simp [hn])
    simp [InvG, stepG, hn, h0.1, h0.2.1, h0.2.2]
  | tone_stylist =>
    have h0 := hpre (by simp [hn])
    simp [InvG, stepG, hn, h0.1, h0.2.1, h0.2.2]
  | draft_writer =>
    have h0 := hmain (by simp [hn])
    rcases h0 with ⟨h1, h2, h3⟩ | ⟨h1, h2, h3⟩ <;>
      simp [InvG, stepG, hn, h1, h2, h3]
  | personalization =>
    have h0 := hmain (by simp [hn])
    rcases h0 with ⟨h1, h2, h3⟩ | ⟨h1, h2, h3⟩ <;>
      simp [InvG, stepG, hn, h1, h2, h3]
  | review_validator =>
    have h0 := hmain (by simp [hn])
    by_cases hv : pyUpper (pyOrS (o.verdict s.validations) "") = "FAIL" <;>
      rcases h0 with ⟨h1, h2, h3⟩ | ⟨h1, h2, h3⟩ <;>
        simp [InvG, stepG, hn, hv, h1, h2, h3]
  | bump_retry =>
    have h0 := hmain (by simp [hn])
    rcases h0 with ⟨h1, h2, h3⟩ | ⟨h1, h2, h3⟩ <;>
      simp [InvG, stepG, hn, h1, h2, h3]
  | apply_revision_hints =>
    have h0 := happly hn
    simp [InvG, stepG, hn, h0.1, h0.2.1, h0.2.2]
  | memory =>
    simp only [InvG, stepG, hn]
    refine ⟨hbound, by simp, by simp, by simp⟩
  | finished =>
    have hs : stepG o s = s := by simp [stepG, hn]
    rw [hs]
    exact ⟨hbound, hpre, hmain, happly⟩

theorem invG_trace (o : GOracle) (n : Nat) : InvG (traceG o n) := by
  induction n with
  | zero => exact invG_init
  | succ k ih =>
    rw [traceG, Function.iterate_succ_apply']
    exact invG_step o _ ih

theorem arh_must_include (c : Constraints) (t : ToneParams) (r : ConstraintResolution) :
    (applyRevisionHints c t (some r)).1.must_include
      = c.must_include.filter (fun x => x ∉ r.drop_must_include.getD []) := by
  unfold applyRevisionHints
  by_cases hd : r.drop_must_include.getD [] = []
  · simp only [hd, ne_eq, not_true_eq_false, if_false]
    have hfilter : c.must_include.filter (fun x => x ∉ ([] : List String))
        = c.must_include :=
      List.filter_eq_self.mpr (fun a _ => by simp)
    by_cases ha : r.add_must_avoid.getD [] = [] <;>
      simp [ha, hfilter]
  · simp only [ne_eq, hd, not_false_eq_true, if_true]
    by_cases ha : r.add_must_avoid.getD [] = [] <;>
      simp [ha]

theorem arh_must_avoid (c : Constraints) (t : ToneParams) (r : ConstraintResolution) :
    (applyRevisionHints c t (some r)).1.must_avoid
      = (if r.add_must_avoid.getD [] = [] then c.must_avoid
         else dedupFirst (c.must_avoid ++ r.add_must_avoid.getD [])) := by
  unfold applyRevisionHints
  by_cases hd : r.drop_must_include.getD [] = [] <;>
    by_cases ha : r.add_must_avoid.getD [] = [] <;>
      simp [hd, ha]

theorem arh_unchanged (c : Constraints) (t : ToneParams) (r : ConstraintResolution) :
    (applyRevisionHints c t (some r)).1.length = c.length
    ∧ (applyRevisionHints c t (some r)).1.use_bullets = c.use_bullets
    ∧ (applyRevisionHints c t (some r)).1.extra = c.extra
    ∧ (applyRevisionHints c t (some r)).1.recipient_email = c.recipient_email
    ∧ (applyRevisionHints c t (some r)).1.recipient_name = c.recipient_name
    ∧ (applyRevisionHints c t (some r)).1.recipient_org = c.recipient_org
    ∧ (applyRevisionHints c t (some r)).1.recipient_role = c.recipient_role
    ∧ (applyRevisionHints c t (some r)).1.recipient_relationship = c.recipient_relationship := by
  unfold applyRevisionHints
  by_cases hd : r.drop_must_include.getD [] = [] <;>
    by_cases ha : r.add_must_avoid.getD [] = [] <;>
      simp [hd, ha]

theorem arh_tone (c : Constraints) (t : ToneParams) (r : ConstraintResolution) :
    (applyRevisionHints c t (some r)).2
      = (match r.override_tone_label with
         | some s => if pyStrip s ≠ "" then { t with tone_label := some (pyStrip s) } else t
         | none => t) := by
  unfold applyRevisionHints
  by_cases hd : r.drop_must_include.getD [] = [] <;>
    by_cases ha : r.add_must_avoid.getD [] = [] <;>
      simp [hd, ha]

/-! ## Claim theorems -/

/-- C1: starting at `retry_count = 0`, each FAIL verdict from the
review validator routes to `bump_retry`, which increments `retry_count`
by exactly one; the Draft Writer → Personalizer → Validator sequence is
re-entered only while the incremented `retry_count` is below 2; once
`retry_count` reaches 2 the loop exits to the memory node regardless of
the verdict; along every run the repair-loop re-entries number at most 2
(and `retry_count` itself never exceeds 2). -/
theorem c1_retry_loop_bounds :
    (∀ (o : GOracle) (n : Nat),
       (traceG o n).reentries ≤ 2 ∧ (traceG o n).retry_count ≤ 2
       ∧ (traceG o n).draftEntries ≤ 2)
  ∧ (∀ (o : GOracle) (s : GState), s.node = .review_validator →
       pyUpper (pyOrS (o.verdict s.validations) "") = "FAIL" →
       (stepG o s).node = .bump_retry)
  ∧ (∀ (o : GOracle) (s : GState), s.node = .bump_retry →
       (stepG o s).retry_count = s.retry_count + 1)
  ∧ (∀ (o : GOracle) (s : GState), s.node = .bump_retry → s.retry_count + 1 < 2 →
       (stepG o s).node = .apply_revision_hints)
  ∧ (∀ (o : GOracle) (s : GState), s.node = .bump_retry → ¬ s.retry_count + 1 < 2 →
       (stepG o s).node = .memory) := by
  refine ⟨?_, ?_, ?_, ?_, ?_⟩
  · intro o n
    have h := invG_trace o n
    exact ⟨h.1.2.2.trans (by omega), h.1.1, h.1.2.1⟩
  · intro o s hn hv
    simp [stepG, hn, hv]
  · intro o s hn
    simp [stepG, hn]
  · intro o s hn hlt
    simp [stepG, hn, hlt]
  · intro o s hn hlt
    simp [stepG, hn, hlt]

theorem c1_retry_loop_bounds_witness :
    ((traceG ⟨false, fun _ => "FAIL"⟩ 12).reentries ≤ 2)
    ∧ ((stepG ⟨false, fun _ => "FAIL"⟩
        ⟨.review_validator, 0, 0, 1, 0⟩).node = .bump_retry)
    ∧ ((stepG ⟨false, fun _ => "FAIL"⟩
        ⟨.bump_retry, 0, 1, 1, 0⟩).retry_count = 1)
    ∧ ((stepG ⟨false, fun _ => "FAIL"⟩
        ⟨.bump_retry, 0, 1, 1, 0⟩).node = .apply_revision_hints)
    ∧ ((stepG ⟨false, fun _ => "FAIL"⟩
        ⟨.bump_retry, 1, 2, 2, 1⟩).node = .memory) :=
  ⟨(c1_retry_loop_bounds.1 ⟨false, fun _ => "FAIL"⟩ 12).1,
   c1_retry_loop_bounds.2.1 _ _ rfl (by decide),
   c1_retry_loop_bounds.2.2.1 _ _ rfl,
   c1_retry_loop_bounds.2.2.2.1 _ _ rfl (by decide),
   c1_retry_loop_bounds.2.2.2.2 _ _ rfl (by decide)⟩

/-- C2: whenever the parsed issues list contains an item whose severity is
"high" case-insensitively, the stored status is "FAIL" — except that a
raw status normalizing to "BLOCKED" is never downgraded; and `is_valid`
is true exactly when the stored status is "PASS". -/
theorem c2_high_severity_forces_fail :
    (∀ data : ValidatorOutput,
       (parsedIssues data).filter isHighSeverity ≠ [] →
       (reviewExecute (.ok data)).1.status =
         (if rawStatusUpper data = "BLOCKED" then "BLOCKED" else "FAIL"))
  ∧ (∀ gen : Except String ValidatorOutput,
       (reviewExecute gen).2 = true ↔ (reviewExecute gen).1.status = "PASS") := by
  constructor
  · intro data h
    show normStatus data = _
    unfold normStatus
    by_cases hb : rawStatusUpper data = "BLOCKED"
    · simp [hb]
    · simp [hb, h]
  · intro gen
    cases gen with
    | error e =>
      show false = true ↔ ("FAIL" : String) = "PASS"
      simp
    | ok data =>
      show decide (normStatus data = "PASS") = true ↔ normStatus data = "PASS"
      simp

theorem c2_high_severity_forces_fail_witness :
    (reviewExecute (.ok
      { status := some "PASS", issues := some [.obj { severity := some "High" }] }
      )).1.status = "FAIL" :=
  (c2_high_severity_forces_fail.1
      { status := some "PASS", issues := some [.obj { severity := some "High" }] }
      (by decide)).trans (by decide)

/-- C9: a generator reply that fails JSON decoding yields (without any
exception escaping the node) `is_valid = false` and a report with status
"FAIL" whose issues list is exactly one synthetic high-severity issue
describing the parse failure.  (`reviewExecute` is a total function: the
decode failure is a value, not an exception.) -/
theorem c9_parse_failure_soft_report :
    ∀ e : String,
      (reviewExecute (.error e)).1.status = "FAIL"
      ∧ (reviewExecute (.error e)).2 = false
      ∧ (reviewExecute (.error e)).1.issues =
          [.obj { category := some "other", severity := some "high",
                  detail := some ("Json Parse Error: " ++ e),
                  suggested_fix := some "Adjust validator prompt to return strict JSON." }]
      ∧ (reviewExecute (.error e)).1.issues ≠ []
      ∧ (reviewExecute (.error e)).1.issues.all isHighSeverity = true := by
  intro e
  refine ⟨rfl, rfl, rfl, by simp [reviewExecute, parseFailureReport], ?_⟩
  show (isHighSeverity (.obj
          { category := some "other", severity := some "high",
            detail := some ("Json Parse Error: " ++ e),
            suggested_fix := some "Adjust validator prompt to return strict JSON." })
        && true) = true
  rfl

/-- C5 counterexample: the report built on generator-output parse failure
has status "FAIL" but an empty `revision_instructions` — the claim's
"non-empty for every FAIL report, including the parse-failure report" is
false on this input. -/
theorem c5_parse_failure_empty_instructions :
    (reviewExecute (.error "Expecting value: line 1 column 1 (char 0)")).1.status = "FAIL"
    ∧ (reviewExecute
        (.error "Expecting value: line 1 column 1 (char 0)")).1.revision_instructions = "" :=
  ⟨rfl, rfl⟩

/-- C5 amended: every FAIL report built from successfully parsed
generator output has non-empty `revision_instructions` (a default
actionable instruction is synthesized when the generator omitted it);
the parse-failure fallback report, by contrast, always carries empty
`revision_instructions`. -/
theorem c5_fail_instructions_nonempty :
    (∀ data : ValidatorOutput,
       (reviewExecute (.ok data)).1.status = "FAIL" →
       (reviewExecute (.ok data)).1.revision_instructions ≠ "")
  ∧ (∀ e : String, (reviewExecute (.error e)).1.revision_instructions = "") := by
  constructor
  · intro data h
    replace h : normStatus data = "FAIL" := h
    show normRevisionInstructions data ≠ ""
    unfold normRevisionInstructions
    by_cases hri : pyStrip (pyOr data.revision_instructions "") = ""
    · rw [if_pos ⟨by simp [h], hri⟩]
      decide
    · rw [if_neg (by simp [hri])]
      exact hri
  · intro e
    rfl

theorem c5_fail_instructions_nonempty_witness :
    (reviewExecute (.ok { status := some "FAIL" })).1.revision_instructions ≠ "" :=
  c5_fail_instructions_nonempty.1 { status := some "FAIL" } (by decide)

/-- C4 counterexample: with the non-sentinel override "follow up", the
agent returns the override verbatim — it does NOT apply the
"follow up" → "follow_up" alias normalization the claim describes (the
`INTENT_ALIASES` table is consulted only on the model-inference path). -/
theorem c4_override_not_alias_normalized :
    (intentExecute "follow up" (.error "unused")).intent = "follow up"
    ∧ aliasGet "follow up" = "follow_up"
    ∧ (intentExecute "follow up" (.error "unused")).intent ≠ aliasGet "follow up"
    ∧ (intentExecute "follow up" (.error "unused")).intent_confidence = 1
    ∧ (intentExecute "follow up" (.error "unused")).intent_source = "ui"
    ∧ (intentExecute "follow up" (.error "unused")).calledGenerator = false := by
  refine ⟨rfl, by decide, by decide, rfl, rfl, rfl⟩

/-- C4 amended: for every override whose stripped form is non-empty and
not a sentinel ("auto"/"(auto)"/"none" case-insensitively), the agent
returns the stripped override verbatim (no alias normalization), with
confidence 1.0, source "ui", and without consulting the generator. -/
theorem c4_override_verbatim :
    ∀ (ov : String) (gen : Except String IntentGenOutput),
      pyStrip ov ≠ "" →
      pyLower (pyStrip ov) ∉ (["auto", "(auto)", "none"] : List String) →
      intentExecute ov gen =
        { intent := pyStrip ov, intent_confidence := 1, intent_source := "ui",
          calledGenerator := false } := by
  intro ov gen h1 h2
  unfold intentExecute
  rw [if_pos ⟨h1, h2⟩]
  simp [pyStrip_idem]

theorem c4_override_verbatim_witness :
    intentExecute "apology" (.error "unused") =
      { intent := "apology", intent_confidence := 1, intent_source := "ui",
        calledGenerator := false } :=
  (c4_override_verbatim "apology" (.error "unused") (by decide) (by decide)).trans
    (by decide)

/-- C7: `build_plan`'s length budget is exactly the fixed table keyed on
the resolved length hint: very_short/tiny → (70,100,3,3),
short/concise → (110,160,4,4), long/detailed → (220,320,6,6), and every
other hint — "medium" included — → (160,240,5,5). -/
theorem c7_length_budget_table :
    (∀ (store : Option TemplateStoreFn) (intent : String) (tp : ToneParams)
        (c : Constraints) (pi : ParsedInput),
       (buildPlan store intent tp c pi).length_budget
         = lengthBudget (buildPlan store intent tp c pi).length_hint)
  ∧ lengthBudget "very_short" = ⟨70, 100, 3, 3⟩
  ∧ lengthBudget "tiny" = ⟨70, 100, 3, 3⟩
  ∧ lengthBudget "short" = ⟨110, 160, 4, 4⟩
  ∧ lengthBudget "concise" = ⟨110, 160, 4, 4⟩
  ∧ lengthBudget "long" = ⟨220, 320, 6, 6⟩
  ∧ lengthBudget "detailed" = ⟨220, 320, 6, 6⟩
  ∧ lengthBudget "medium" = ⟨160, 240, 5, 5⟩
  ∧ (∀ s : String,
       s ∉ (["very_short", "tiny", "short", "concise", "long", "detailed"] : List String) →
       lengthBudget s = ⟨160, 240, 5, 5⟩) := by
  refine ⟨fun _ _ _ _ _ => rfl, by decide, by decide, by decide, by decide,
          by decide, by decide, by decide, ?_⟩
  intro s hs
  simp only [List.mem_cons, List.not_mem_nil, or_false, not_or] at hs
  obtain ⟨h1, h2, h3, h4, h5, h6⟩ := hs
  simp [lengthBudget, h1, h2, h3, h4, h5, h6]

theorem c7_length_budget_table_witness :
    lengthBudget "exhaustive" = ⟨160, 240, 5, 5⟩ :=
  c7_length_budget_table.2.2.2.2.2.2.2.2 "exhaustive" (by decide)

/-- C8: applying a present `constraint_resolution` removes every listed
item from `must_include` (and touches nothing else there), replaces
`must_avoid` by the first-occurrence deduplication of
`must_avoid ++ add_must_avoid` exactly when `add_must_avoid` is
non-empty (every added item is then a member, the result has no
duplicates and preserves relative order as a sublist), overwrites
`tone_params.tone_label` if and only if a non-blank override tone is
given, and leaves all other constraint entries and tone fields
unchanged. -/
theorem c8_apply_revision_hints :
    ∀ (c : Constraints) (t : ToneParams) (r : ConstraintResolution),
      ((applyRevisionHints c t (some r)).1.must_include
          = c.must_include.filter (fun x => x ∉ r.drop_must_include.getD []))
      ∧ (∀ x ∈ r.drop_must_include.getD [],
           x ∉ (applyRevisionHints c t (some r)).1.must_include)
      ∧ ((applyRevisionHints c t (some r)).1.must_avoid
          = (if r.add_must_avoid.getD [] = [] then c.must_avoid
             else dedupFirst (c.must_avoid ++ r.add_must_avoid.getD [])))
      ∧ (r.add_must_avoid.getD [] ≠ [] →
           (∀ x ∈ r.add_must_avoid.getD [],
              x ∈ (applyRevisionHints c t (some r)).1.must_avoid)
           ∧ ((applyRevisionHints c t (some r)).1.must_avoid).Nodup
           ∧ List.Sublist (applyRevisionHints c t (some r)).1.must_avoid
               (c.must_avoid ++ r.add_must_avoid.getD []))
      ∧ ((applyRevisionHints c t (some r)).2.tone_label
          = (match r.override_tone_label with
             | some s => if pyStrip s ≠ "" then some (pyStrip s) else t.tone_label
             | none => t.tone_label))
      ∧ ((applyRevisionHints c t (some r)).2.formality = t.formality
         ∧ (applyRevisionHints c t (some r)).2.warmth = t.warmth
         ∧ (applyRevisionHints c t (some r)).2.directness = t.directness
         ∧ (applyRevisionHints c t (some r)).2.confidence = t.confidence)
      ∧ ((applyRevisionHints c t (some r)).1.length = c.length
         ∧ (applyRevisionHints c t (some r)).1.use_bullets = c.use_bullets
         ∧ (applyRevisionHints c t (some r)).1.extra = c.extra) := by
  intro c t r
  refine ⟨arh_must_include c t r, ?_, arh_must_avoid c t r, ?_, ?_, ?_, ?_⟩
  · intro x hx
    rw [arh_must_include c t r]
    simp only [List.mem_filter, decide_not]
    rintro ⟨-, hmem⟩
    simp [hx] at hmem
  · intro ha
    have hmeq := arh_must_avoid c t r
    rw [if_neg ha] at hmeq
    refine ⟨?_, ?_, ?_⟩
    · intro x hx
      rw [hmeq, mem_dedupFirst]
      exact List.mem_append_right _ hx
    · rw [hmeq]
      exact dedupFirst_nodup _
    · rw [hmeq]
      exact dedupFirst_sublist _
  · have h := arh_tone c t r
    rw [h]
    cases hov : r.override_tone_label with
    | none => rfl
    | some s =>
      by_cases hb : pyStrip s ≠ "" <;> simp [hb]
  · have h := arh_tone c t r
    rw [h]
    cases hov : r.override_tone_label with
    | none => exact ⟨rfl, rfl, rfl, rfl⟩
    | some s =>
      by_cases hb : pyStrip s ≠ "" <;> simp [hb]
  · have h := arh_unchanged c t r
    exact ⟨h.1, h.2.1, h.2.2.1⟩

theorem c8_apply_revision_hints_witness :
    (applyRevisionHints
        { must_include := ["price", "deadline"], must_avoid := ["slang"] }
        { tone_label := some "assertive" }
        (some { drop_must_include := some ["price"],
                add_must_avoid := some ["threats", "slang"],
                override_tone_label := some " professional " })).1.must_avoid
      = ["slang", "threats"]
    ∧ (applyRevisionHints
        { must_include := ["price", "deadline"], must_avoid := ["slang"] }
        { tone_label := some "assertive" }
        (some { drop_must_include := some ["price"],
                add_must_avoid := some ["threats", "slang"],
                override_tone_label := some " professional " })).2.tone_label
      = some "professional" := by
  have h := c8_apply_revision_hints
      { must_include := ["price", "deadline"], must_avoid := ["slang"] }
      { tone_label := some "assertive" }
      { drop_must_include := some ["price"],
        add_must_avoid := some ["threats", "slang"],
        override_tone_label := some " professional " }
  have h1 := h.2.2.1
  have h2 := h.2.2.2.2.1
  rw [if_neg (by decide)] at h1
  exact ⟨h1.trans (by decide), h2.trans (by decide)⟩

/-- C3: an `upsert_summary` call happens only when the final report
status uppercases to "PASS" and a user id is present; any state whose
status does not uppercase to "PASS" never writes; and since every status
the review validator stores is uppercase-stable, a validator-produced
status other than "PASS" never writes. -/
theorem c3_memory_only_on_pass :
    (∀ (digest : String → String) (st : MemoryInput) (merge : Option Summary)
        (call : UpsertCall),
       memoryExecute digest st merge = some call →
       pyUpper (pyOr st.validation_report_status "") = "PASS" ∧ st.user_id ≠ "")
  ∧ (∀ (digest : String → String) (st : MemoryInput) (merge : Option Summary),
       pyUpper (pyOr st.validation_report_status "") ≠ "PASS" →
       memoryExecute digest st merge = none)
  ∧ (∀ (gen : Except String ValidatorOutput) (digest : String → String)
        (uid : String) (recip : Option Recipient) (cons : Constraints)
        (merge : Option Summary),
       (reviewExecute gen).1.status ≠ "PASS" →
       memoryExecute digest
         { validation_report_status := some (reviewExecute gen).1.status,
           user_id := uid, recipient := recip, constraints := cons } merge = none) := by
  have hskip : ∀ (digest : String → String) (st : MemoryInput) (merge : Option Summary),
      pyUpper (pyOr st.validation_report_status "") ≠ "PASS" →
      memoryExecute digest st merge = none := by
    intro digest st merge h
    unfold memoryExecute
    rw [if_pos h]
  refine ⟨?_, hskip, ?_⟩
  · intro digest st merge call h
    unfold memoryExecute at h
    by_cases h1 : pyUpper (pyOr st.validation_report_status "") ≠ "PASS"
    · rw [if_pos h1] at h
      exact absurd h (by simp)
    · refine ⟨not_ne_iff.mp h1, ?_⟩
      rw [if_neg h1] at h
      by_cases h2 : st.user_id = ""
      · rw [if_pos h2] at h
        exact absurd h (by simp)
      · exact h2
  · intro gen digest uid recip cons merge h
    apply hskip
    show pyUpper (pyOr (some (reviewExecute gen).1.status) "") ≠ "PASS"
    have hne := reviewStatus_ne_empty gen
    have hup := reviewStatus_upper gen
    rw [show pyOr (some (reviewExecute gen).1.status) "" = (reviewExecute gen).1.status
          from by simp [pyOr, hne], hup]
    exact h

theorem c3_memory_only_on_pass_witness :
    memoryExecute (fun s => s)
      { validation_report_status := some "FAIL", user_id := "u1" } (some {}) = none :=
  c3_memory_only_on_pass.2.1 (fun s => s)
    { validation_report_status := some "FAIL", user_id := "u1" } (some {}) (by decide)

/-- C6 counterexample: for a recipient with org and role but no name, two
of the three hash fields are present yet `compute_recipient_key` derives
no key (the code requires the NAME plus one of org/role); and with such
a recipient on a PASS run the agent does not skip persistence — it calls
`upsert_summary` with a null recipient key. -/
theorem c6_key_and_skip_counterexample :
    computeRecipientKey (fun s => s)
      { org := some "acme", role := some "cto" } = none
    ∧ memoryExecute (fun s => s)
        { validation_report_status := some "PASS", user_id := "u1",
          recipient := some { org := some "acme", role := some "cto" } }
        (some {})
      = some { user_id := "u1", recipient_key := none, summary := {} } :=
  ⟨rfl, rfl⟩

/-- C6 amended: the recipient key prefers a normalized lowercase email;
otherwise the deterministic hash is used exactly when the NAME is
present together with at least one of org/role (org+role without a name
derives no key); and a missing key does NOT skip persistence — on a PASS
run with a user id and a parseable merge result, `upsert_summary` is
called with whatever `recipient_key` was derived, including `None`. -/
theorem c6_recipient_key_and_persistence :
    (∀ (digest : String → String) (r : Recipient),
       (pyLower (pyStrip (pyOr r.email "")) ≠ "" →
          computeRecipientKey digest r
            = some ("email:" ++ pyLower (pyStrip (pyOr r.email ""))))
       ∧ ((computeRecipientKey digest r).isSome ↔
            (pyLower (pyStrip (pyOr r.email "")) ≠ ""
             ∨ (pyLower (pyStrip (pyOr r.name "")) ≠ ""
                ∧ (pyLower (pyStrip (pyOr r.org "")) ≠ ""
                   ∨ pyLower (pyStrip (pyOr r.role "")) ≠ "")))))
  ∧ (∀ (digest : String → String) (st : MemoryInput) (summary : Summary),
       pyUpper (pyOr st.validation_report_status "") = "PASS" →
       st.user_id ≠ "" →
       memoryExecute digest st (some summary)
         = some { user_id := st.user_id, recipient_key := recipientKeyOf digest st,
                  summary := summary }) := by
  constructor
  · intro digest r
    constructor
    · intro he
      unfold computeRecipientKey
      rw [if_pos he]
    · unfold computeRecipientKey
      by_cases he : pyLower (pyStrip (pyOr r.email "")) = ""
      · rw [if_neg (by simp [he])]
        by_cases hn : (pyLower (pyStrip (pyOr r.name "")) ≠ ""
            ∧ pyLower (pyStrip (pyOr r.org "")) ≠ "")
          ∨ (pyLower (pyStrip (pyOr r.name "")) ≠ ""
            ∧ pyLower (pyStrip (pyOr r.role "")) ≠ "")
        · rw [if_pos hn]
          simp only [Option.isSome_some, true_iff]
          tauto
        · rw [if_neg hn]
          simp only [Option.isSome_none, Bool.false_eq_true, false_iff]
          tauto
      · rw [if_pos he]
        simp [he]
  · intro digest st summary h1 h2
    unfold memoryExecute
    rw [if_neg (by simp [h1]), if_neg h2]

theorem c6_recipient_key_and_persistence_witness :
    computeRecipientKey (fun s => s)
      { email := some " Ada@Example.COM " } = some "email:ada@example.com"
    ∧ memoryExecute (fun s => s)
        { validation_report_status := some "PASS", user_id := "u1",
          recipient := some { email := some "ada@example.com" } }
        (some {})
      = some { user_id := "u1",
               recipient_key := recipientKeyOf (fun s => s)
                 { validation_report_status := some "PASS", user_id := "u1",
                   recipient := some { email := some "ada@example.com" } },
               summary := {} } :=
  ⟨((c6_recipient_key_and_persistence.1 (fun s => s)
      { email := some " Ada@Example.COM " }).1 (by decide)).trans (by decide),
   c6_recipient_key_and_persistence.2 (fun s => s)
      { validation_report_status := some "PASS", user_id := "u1",
        recipient := some { email := some "ada@example.com" } }
      {} (by decide) (by decide)⟩

/-- C10: the pipeline writes `validation_report` statuses outside
PASS/FAIL/BLOCKED — the input parser terminates a clarification run with
status "NEEDS_CLARIFICATION" plus questions (on both its parse-failure
and parsed paths), writes "OK" on a successful parse without
clarification, and the tone stylist's parse-failure fallback writes
"WARN"; the clarification router then ends the run. -/
theorem c10_undocumented_statuses :
    (∀ e : String,
       (inputParserExecute (.error e)).requires_clarification = true
       ∧ (inputParserExecute (.error e)).validation_report.status = "NEEDS_CLARIFICATION"
       ∧ (inputParserExecute (.error e)).validation_report.questions ≠ [])
  ∧ (∀ d : ParserGenOutput, d.requires_clarification = true →
       (inputParserExecute (.ok d)).validation_report.status = "NEEDS_CLARIFICATION"
       ∧ (inputParserExecute (.ok d)).validation_report.questions ≠ [])
  ∧ (∀ d : ParserGenOutput, d.requires_clarification = false →
       (inputParserExecute (.ok d)).validation_report.status = "OK")
  ∧ (∀ (tp : ToneParams) (e : String) (mp : ToneGenOutput → ToneUpdates),
       pyStrip (pyOr tp.tone_label "") = "" →
       (toneStylistExecute tp (.error e) mp).validation_report
         = some { status := "WARN",
                  reason := some
                    "ToneStylist returned non-JSON output; applied default tone." }
       ∧ (toneStylistExecute tp (.error e) mp).tone_params = defaultTone
       ∧ (toneStylistExecute tp (.error e) mp).tone_source = "default")
  ∧ inputParserRouter true = .finished
  ∧ ("NEEDS_CLARIFICATION" ∉ (["PASS", "FAIL", "BLOCKED"] : List String)
     ∧ "WARN" ∉ (["PASS", "FAIL", "BLOCKED"] : List String)
     ∧ "OK" ∉ (["PASS", "FAIL", "BLOCKED"] : List String)) := by
  refine ⟨?_, ?_, ?_, ?_, rfl, by decide⟩
  · intro e
    exact ⟨rfl, rfl, by simp [inputParserExecute, parseFailureQuestions]⟩
  · intro d h
    simp only [inputParserExecute, h, if_true]
    refine ⟨trivial, ?_⟩
    by_cases hq : d.clarification_questions.getD [] = []
    · simp [hq, defaultClarificationQuestions]
    · rcases hql : d.clarification_questions.getD [] with _ | ⟨a, as⟩
      · exact absurd hql hq
      · simp [hql]
  · intro d h
    simp [inputParserExecute, h]
  · intro tp e mp h
    simp [toneStylistExecute, h]

theorem c10_undocumented_statuses_witness :
    (inputParserExecute (.ok { requires_clarification := true })
      ).validation_report.status = "NEEDS_CLARIFICATION"
    ∧ (toneStylistExecute {} (.error "boom")
         (fun _ => { tone_params := {}, tone_source := "model" })).validation_report
      = some { status := "WARN",
               reason := some
                 "ToneStylist returned non-JSON output; applied default tone." } :=
  ⟨(c10_undocumented_statuses.2.1 { requires_clarification := true } rfl).1,
   (c10_undocumented_statuses.2.2.2.1 {} "boom"
      (fun _ => { tone_params := {}, tone_source := "model" }) (by decide)).1⟩

end EmailAgent
